import Mathlib

/-!
Verification of the resilient batch upload engine of the repository
(`src/s3-uploader.ts`, `src/credentials-client.ts`).

Shallow embedding of the upload orchestrator of the `hycos-ai/gh-action`
repository.  Effectful operations (the actual S3 transfer, the credential
fetch) are modelled as oracles passed in as function arguments; everything
else is translated directly from the TypeScript source.
-/

namespace GhAction

/-- Structure `LogContent` from `src/types.ts`: the log artifact of one job. -/
structure LogContent where
  jobName : String
  jobId : Nat
  content : String
  timestamp : String
  deriving DecidableEq

/-- Structure `S3UploadResult` from `src/types.ts`. -/
structure S3UploadResult where
  location : String
  bucket : String
  key : String
  etag : String
  deriving DecidableEq

/-- Structure `RetryOptions` from `src/types.ts`. -/
structure RetryOptions where
  maxAttempts : Nat
  initialDelay : Nat
  maxDelay : Nat
  backoffFactor : Nat
  deriving DecidableEq

/-- The default retry options installed by the `S3Uploader` constructor
(`src/s3-uploader.ts` lines 44-49). -/
def defaultRetryOptions : RetryOptions :=
  { maxAttempts := 3, initialDelay := 1000, maxDelay := 10000, backoffFactor := 2 }

/-- A raised error as observed by the uploader: the message string inspected by
`isCredentialsError`, the HTTP status (when a response was received), and
whether the failure was a connection-level failure with no response at all. -/
structure UploadError where
  message : String
  status : Option Nat
  connectionFailure : Bool
  deriving DecidableEq

/-- JavaScript `String.prototype.includes` on character lists: `pat` occurs as
a contiguous substring. -/
def charsInclude (pat : List Char) : List Char → Bool
  | [] => pat.isEmpty
  | c :: cs => pat.isPrefixOf (c :: cs) || charsInclude pat cs

/-- JavaScript `haystack.includes(needle)`. -/
def strIncludes (s pat : String) : Bool :=
  charsInclude pat.data s.data

/-- JavaScript `s.trim()`: whitespace stripped from both ends. -/
def jsTrim (s : String) : String :=
  String.mk
    (((s.data.dropWhile Char.isWhitespace).reverse.dropWhile
      Char.isWhitespace).reverse)

/-- Function `S3Uploader.isCredentialsError` (`src/s3-uploader.ts` lines 117-126):
message-substring matching for credential-related failures. -/
def isCredentialsError (e : UploadError) : Bool :=
  strIncludes e.message "InvalidAccessKeyId" ||
  strIncludes e.message "SignatureDoesNotMatch" ||
  strIncludes e.message "TokenRefreshRequired" ||
  strIncludes e.message "ExpiredToken" ||
  strIncludes e.message "Forbidden"

/-- The observable trace of one `executeWithRetry` call: its final outcome
(the returned value or the last error rethrown at line 111), the sequence of
back-off delays slept between attempts (line 106), the number of times the
wrapped operation was invoked, the number of credential-error warnings logged
(lines 98-101 — the source logs a warning on a credential error but, per its
own comment, it does not try to refresh), and the number of invocations of any
credential-refresh operation (the source contains none, so this counter is
never incremented anywhere in the loop body). -/
structure RetryTrace (α : Type) where
  outcome : Except UploadError α
  delays : List Nat
  attempts : Nat
  credentialWarnings : Nat
  refreshCalls : Nat

/-- The loop body of `S3Uploader.executeWithRetry` (`src/s3-uploader.ts` lines
84-111).  `op n` is the result of the `n`-th invocation of `operation`;
`remaining` is the number of attempts still allowed including the current one
(`maxAttempts - attempt + 1`), so `remaining = 1` is the `attempt ===
maxAttempts` break at line 93.  On a failed non-final attempt the loop logs a
credential warning when `isCredentialsError`, sleeps `delay`, and continues
with `min (delay * backoffFactor) maxDelay` (line 107). -/
def retryGo (op : Nat → Except UploadError α) (factor maxD : Nat) :
    Nat → Nat → Nat → RetryTrace α
  | _, _, 0 =>
      -- never reached: `executeWithRetry` always starts with `remaining ≥ 1`
      ⟨.error ⟨"", none, false⟩, [], 0, 0, 0⟩
  | attempt, _, 1 =>
      match op attempt with
      | .ok v => ⟨.ok v, [], 1, 0, 0⟩
      | .error e => ⟨.error e, [], 1, 0, 0⟩
  | attempt, delay, r + 2 =>
      match op attempt with
      | .ok v => ⟨.ok v, [], 1, 0, 0⟩
      | .error e =>
        let warn := if isCredentialsError e then 1 else 0
        let rest := retryGo op factor maxD (attempt + 1)
          (min (delay * factor) maxD) (r + 1)
        ⟨rest.outcome, delay :: rest.delays, rest.attempts + 1,
          rest.credentialWarnings + warn, rest.refreshCalls⟩

/-- Function `S3Uploader.executeWithRetry` (`src/s3-uploader.ts` lines 80-112).  With
`maxAttempts = 0` the `for` loop body never runs and the undefined `lastError`
is thrown (modelled as an empty error). -/
def executeWithRetry (op : Nat → Except UploadError α) (opts : RetryOptions) :
    RetryTrace α :=
  match opts.maxAttempts with
  | 0 => ⟨.error ⟨"", none, false⟩, [], 0, 0, 0⟩
  | n + 1 => retryGo op opts.backoffFactor opts.maxDelay 1 opts.initialDelay (n + 1)

/-- The placeholder installed at `src/s3-uploader.ts` line 244 after a
successful upload. -/
def uploadedPlaceholder : String := "[UPLOADED - Content cleared to save memory]"

/-- One task of a slice (`src/s3-uploader.ts` lines 239-251): on success the
result is kept and the `content` of the task is cleared to the placeholder; on
failure the error string `jobName: message` is recorded and the task is left
untouched.  `uploadFn` is the oracle for `this.uploadLogFile(log, ...)`. -/
def settleTask (uploadFn : LogContent → Except UploadError S3UploadResult)
    (log : LogContent) : Option S3UploadResult × Option String × LogContent :=
  match uploadFn log with
  | .ok r => (some r, none, { log with content := uploadedPlaceholder })
  | .error e => (none, some (log.jobName ++ ": " ++ e.message), log)

/-- One slice of the batch loop (`src/s3-uploader.ts` lines 239-254): all
tasks of the slice settle, successful results are collected in order and
per-task errors appended to the error list. -/
def processSlice (uploadFn : LogContent → Except UploadError S3UploadResult)
    (batch : List LogContent) :
    List S3UploadResult × List String × List LogContent :=
  let settled := batch.map (settleTask uploadFn)
  (settled.filterMap (·.1), settled.filterMap (·.2.1), settled.map (·.2.2))

/-- The slicing loop of `uploadAllLogs` (`src/s3-uploader.ts` lines 232-265):
`for (let i = 0; i < logs.length; i += concurrencyLimit)` with
`batch = logs.slice(i, i + concurrencyLimit)`.  The concurrency limit computed
by the source is always ≥ 1, and for `c ≥ 1` taking `1 + (c-1)` elements per
slice is exactly `logs.slice(i, i+c)`. -/
def uploadSlices (uploadFn : LogContent → Except UploadError S3UploadResult)
    (c : Nat) : List LogContent →
    List S3UploadResult × List String × List LogContent
  | [] => ([], [], [])
  | l :: ls =>
    ((processSlice uploadFn (l :: ls.take (c - 1))).1
        ++ (uploadSlices uploadFn c (ls.drop (c - 1))).1,
      (processSlice uploadFn (l :: ls.take (c - 1))).2.1
        ++ (uploadSlices uploadFn c (ls.drop (c - 1))).2.1,
      (processSlice uploadFn (l :: ls.take (c - 1))).2.2
        ++ (uploadSlices uploadFn c (ls.drop (c - 1))).2.2)
  termination_by logs => logs.length
  decreasing_by
    all_goals simp [List.length_drop]
    all_goals omega

/-- The adaptive concurrency computation of `uploadAllLogs`
(`src/s3-uploader.ts` lines 211-224).  `availableMemory` is the oracle for
`this.getAvailableMemory()` (a runtime heap query, lines 293-302); the mean
log size is the exact real-valued `totalLogSize / logs.length` of line 213,
modelled in ℚ. -/
def concurrencyLimit (logs : List LogContent) (availableMemory : ℚ) : Nat :=
  let totalLogSize : Nat := (logs.map (fun log => log.content.length)).sum
  let avgLogSize : ℚ := (totalLogSize : ℚ) / (logs.length : ℚ)
  if avgLogSize > 10 * 1024 * 1024 then 1
  else if avgLogSize > 1024 * 1024 then 2
  else if availableMemory > 1024 * 1024 * 1024 then 5
  else 3

/-- Function `S3Uploader.uploadAllLogs` (`src/s3-uploader.ts` lines 197-288), with the
per-file upload as an oracle.  Returns the collected results, the recorded
per-task error strings, and the final state of the (mutated-in-place) task
list.  The empty-input early return is lines 203-206. -/
def uploadAllLogs (availableMemory : ℚ)
    (uploadFn : LogContent → Except UploadError S3UploadResult)
    (logs : List LogContent) :
    List S3UploadResult × List String × List LogContent :=
  if logs.length = 0 then ([], [], [])
  else uploadSlices uploadFn (concurrencyLimit logs availableMemory) logs

/-- The character class kept by the sanitization regex
`/[^a-zA-Z0-9-_]/g` of `src/s3-uploader.ts` line 71. -/
def isS3KeyAllowedChar (c : Char) : Bool :=
  (decide ('a' ≤ c) && decide (c ≤ 'z')) ||
  (decide ('A' ≤ c) && decide (c ≤ 'Z')) ||
  (decide ('0' ≤ c) && decide (c ≤ '9')) ||
  c = '-' || c = '_'

/-- Sanitization `jobName.replace(/[^a-zA-Z0-9-_]/g, '_')` (`src/s3-uploader.ts` line 71):
every character outside the class is replaced by `'_'`. -/
def sanitizeJobName (jobName : String) : String :=
  String.mk (jobName.data.map (fun c => if isS3KeyAllowedChar c then c else '_'))

/-- Function `S3Uploader.generateS3Key` (`src/s3-uploader.ts` lines 69-75).  `dateISO`
and `epochMillis` stand for the date part of the ISO rendering of `new Date(timestamp)`
and `new Date(timestamp).getTime()`: both are pure functions of the `timestamp`
string, so they are passed in already parsed. -/
def generateS3Key (workflowRunId : Nat) (jobName : String)
    (dateISO : String) (epochMillis : Int) (s3LogPath : String) : String :=
  s3LogPath ++ "/" ++ dateISO ++ "/" ++ toString workflowRunId ++ "/" ++
    sanitizeJobName jobName ++ "_" ++ toString epochMillis ++ ".log"

/-- Structure `CloudCredentialsResponse` from `src/types.ts`.  `expiration` is the epoch
millisecond value of the parsed expiration timestamp
(`new Date(credentials.expiration).getTime()`); `none` models a missing
expiration field. -/
structure CloudCredentialsResponse where
  accessKeyId : String
  secretAccessKey : String
  sessionToken : String
  expiration : Option Int
  bucket : String
  deriving DecidableEq

/-- The credential validation of the `S3Uploader` constructor
(`src/s3-uploader.ts` lines 31-63): it throws (`.error`) when bucket, access
key id or secret access key is empty or whitespace-only, and otherwise stores
the credentials and retry options (defaulting the latter). -/
def mkS3Uploader (credentials : CloudCredentialsResponse)
    (retryOptions : Option RetryOptions) :
    Except String (CloudCredentialsResponse × RetryOptions) :=
  if jsTrim credentials.bucket = "" then
    .error "S3 bucket name is required but was not provided in credentials"
  else if jsTrim credentials.accessKeyId = "" then
    .error "AWS Access Key ID is required but was not provided in credentials"
  else if jsTrim credentials.secretAccessKey = "" then
    .error "AWS Secret Access Key is required but was not provided in credentials"
  else
    .ok (credentials, retryOptions.getD defaultRetryOptions)

/-- Function `CredentialsClient.areCredentialsValid` (`src/credentials-client.ts` lines
94-108): with no expiration the credentials are assumed valid; otherwise they
are valid exactly when `now` is before the expiration minus a 5-minute
buffer.  `now` is the epoch millisecond value of `new Date()`. -/
def areCredentialsValid (now : Int) (credentials : CloudCredentialsResponse) :
    Bool :=
  match credentials.expiration with
  | none => true
  | some expiration => decide (now < expiration - 5 * 60 * 1000)

/-- Function `CredentialsClient.refreshCredentialsIfNeeded` (`src/credentials-client.ts`
lines 115-125): returns the current credentials when present and still valid,
and otherwise the result of `this.getCloudCredentials()`, passed in as the
oracle `fetched`. -/
def refreshCredentialsIfNeeded (now : Int)
    (current : Option CloudCredentialsResponse)
    (fetched : CloudCredentialsResponse) : CloudCredentialsResponse :=
  match current with
  | none => fetched
  | some c => if areCredentialsValid now c then c else fetched

/-- Modelled from the spec: `ErrorClassifier.classify` (§4.2).  No classifier
exists in the source — `executeWithRetry` only consults `isCredentialsError` —
so the five-rule priority classification of the spec is reproduced here to
*state* which errors the spec calls `ClientRejected`. -/
inductive ErrorKind where
  | credentialExpired
  | throttled
  | clientRejected
  | networkFailure
  | unknownKind
  deriving DecidableEq

/-- Modelled from the spec: the priority-ordered classification rules of §4.2.
Rule 1 uses the same keyword set as `isCredentialsError` in the source. -/
def classifyError (e : UploadError) : ErrorKind :=
  if isCredentialsError e then .credentialExpired
  else
    match e.status with
    | some s =>
      if s = 408 ∨ s = 429 then .throttled
      else if 400 ≤ s ∧ s < 500 then .clientRejected
      else if e.connectionFailure then .networkFailure
      else .unknownKind
    | none => if e.connectionFailure then .networkFailure else .unknownKind

/-! ## Concrete sample inputs used in scenarios and witnesses -/

/-- Sample upload result returned by the successful upload oracles below. -/
def sampleResult : S3UploadResult :=
  { location := "https://bucket.s3.amazonaws.com/logs/k.log"
    bucket := "bucket", key := "logs/k.log", etag := "etag1" }

/-- Sample small task. -/
def tinyLog : LogContent :=
  { jobName := "job1", jobId := 1, content := "x"
    timestamp := "2024-01-01T00:00:00Z" }

/-- Upload oracle on which every transfer succeeds. -/
def okFn : LogContent → Except UploadError S3UploadResult :=
  fun _ => .ok sampleResult

/-- Synthetic HTTP 400 failure: a response was received, the status lies in
the 400-499 band, is neither 408 nor 429, and the message matches none of the
credential keywords, so the classification of the spec is `ClientRejected`. -/
def err400 : UploadError :=
  { message := "Request failed with status code 400", status := some 400
    connectionFailure := false }

/-- Synthetic credential-expiry failure: the message contains the keyword
`ExpiredToken` matched by `isCredentialsError`. -/
def expiredTokenError : UploadError :=
  { message := "ExpiredToken: The provided token has expired."
    status := some 400, connectionFailure := false }

/-- Operation failing with a credential-expiry error on the first attempt and
succeeding on the second. -/
def opCredOnce : Nat → Except UploadError S3UploadResult :=
  fun attempt => if attempt = 1 then .error expiredTokenError else .ok sampleResult

/-- Connection-level network failure (no response received). -/
def failNetError : UploadError :=
  { message := "socket hang up", status := none, connectionFailure := true }

/-- Upload oracle on which every transfer fails with a network error. -/
def failNet : LogContent → Except UploadError S3UploadResult :=
  fun _ => .error failNetError

/-- A task whose content has mean size above 10 MiB (11 MiB of `a`). -/
def bigLog : LogContent :=
  { jobName := "big", jobId := 1
    content := String.mk (List.replicate 11534336 'a'), timestamp := "ts" }

/-- A task whose content has mean size 2 MiB. -/
def medLog : LogContent :=
  { jobName := "med", jobId := 2
    content := String.mk (List.replicate 2097152 'b'), timestamp := "ts" }

/-- A task with tiny (1 byte) content. -/
def smallLog : LogContent :=
  { jobName := "small", jobId := 3, content := "x", timestamp := "ts" }

/-- Credentials missing the access key id (empty string). -/
def badCredentials : CloudCredentialsResponse :=
  { accessKeyId := "", secretAccessKey := "secret", sessionToken := "tok"
    expiration := none, bucket := "bucket" }

/-- Sample cached credentials expiring at epoch millisecond 1000000, so the
5-minute safety margin makes them invalid from 700000 on. -/
def sampleCredentials : CloudCredentialsResponse :=
  { accessKeyId := "AKIA", secretAccessKey := "SECRET", sessionToken := "TOKEN"
    expiration := some 1000000, bucket := "bucket" }

/-- Sample freshly fetched credentials. -/
def freshCredentials : CloudCredentialsResponse :=
  { accessKeyId := "AKIA2", secretAccessKey := "SECRET2"
    sessionToken := "TOKEN2", expiration := some 9000000, bucket := "bucket" }

/-! ## Helper lemmas -/

/-- If the wrapped operation succeeds at the current attempt, the retry loop
returns at once with a singleton trace. -/
theorem retryGo_ok {α : Type} (op : Nat → Except UploadError α) (factor maxD : Nat)
    (attempt delay r : Nat) (v : α) (hop : op attempt = .ok v) (hr : 1 ≤ r) :
    retryGo op factor maxD attempt delay r = ⟨.ok v, [], 1, 0, 0⟩ := by
  match r, hr with
  | 1, _ => simp [retryGo, hop]
  | (m + 2), _ => simp [retryGo, hop]

/-- An always-failing operation is attempted exactly `remaining` times and the
last error surfaces. -/
theorem retryGo_allFail {α : Type} (err : UploadError) (factor maxD : Nat) :
    ∀ (r attempt delay : Nat), 1 ≤ r →
      (retryGo (fun _ => .error (α := α) err) factor maxD attempt delay r).outcome
          = .error err ∧
      (retryGo (fun _ => .error (α := α) err) factor maxD attempt delay r).attempts
          = r
  | 1, _, _, _ => by simp [retryGo]
  | (m + 2), attempt, delay, _ => by
    have ih := retryGo_allFail (α := α) err factor maxD (m + 1) (attempt + 1)
      (min (delay * factor) maxD) (by omega)
    simp [retryGo, ih.1, ih.2]

/-- Capping interacts with doubling: iterating `d ↦ min (d * 2) M` matches the
closed form `min (d * 2 ^ k) M`. -/
theorem min_double_pow (d M k : Nat) :
    min (min (d * 2) M * 2 ^ k) M = min (d * 2 ^ (k + 1)) M := by
  rcases le_or_lt (d * 2) M with h | h
  · rw [Nat.min_eq_left h, pow_succ]
    ring_nf
  · rw [Nat.min_eq_right (Nat.le_of_lt h)]
    have h2 : 1 ≤ 2 ^ k := Nat.one_le_two_pow
    have hL : M ≤ M * 2 ^ k := Nat.le_mul_of_pos_right M (by omega)
    have hR : M ≤ d * 2 ^ (k + 1) := by
      have : M * 1 ≤ (d * 2) * 2 ^ k := Nat.mul_le_mul (Nat.le_of_lt h) h2
      calc M = M * 1 := by ring
        _ ≤ (d * 2) * 2 ^ k := this
        _ = d * 2 ^ (k + 1) := by rw [pow_succ]; ring
    rw [Nat.min_eq_right hL, Nat.min_eq_right hR]

/-- Closed form of the back-off delays of an always-failing operation with
`backoffFactor = 2`: the delay slept before the `(k+1)`-th retry is
`min (d * 2 ^ k) M`, as long as the starting delay does not exceed the cap. -/
theorem retryGo_allFail_delays {α : Type} (err : UploadError) (M : Nat) :
    ∀ (r attempt d : Nat), d ≤ M →
      (retryGo (fun _ => .error (α := α) err) 2 M attempt d r).delays
        = (List.range (r - 1)).map (fun k => min (d * 2 ^ k) M)
  | 0, _, _, _ => by simp [retryGo]
  | 1, _, _, _ => by simp [retryGo]
  | (m + 2), attempt, d, hd => by
    have ih := retryGo_allFail_delays (α := α) err M (m + 1) (attempt + 1)
      (min (d * 2) M) (Nat.min_le_right _ _)
    simp only [retryGo, ih, Nat.add_sub_cancel, Nat.succ_sub_one]
    rw [List.range_succ_eq_map]
    simp only [List.map_cons, List.map_map]
    congr 1
    · rw [pow_zero, Nat.mul_one]
      exact (Nat.min_eq_left hd).symm
    · apply List.map_congr_left
      intro k _
      simp only [Function.comp_apply]
      exact min_double_pow d M k

/-- Every settled task contributes exactly one terminal outcome: either a
result or a recorded error, never both, never neither. -/
theorem settledCount (fn : LogContent → Except UploadError S3UploadResult) :
    ∀ batch : List LogContent,
      ((batch.map (settleTask fn)).filterMap (fun s => s.1)).length
          + ((batch.map (settleTask fn)).filterMap (fun s => s.2.1)).length
        = batch.length
  | [] => rfl
  | x :: xs => by
    have ih := settledCount fn xs
    cases h : fn x with
    | ok r =>
      simp only [List.map_cons, settleTask, h, List.filterMap_cons,
        List.length_cons]
      omega
    | error e =>
      simp only [List.map_cons, settleTask, h, List.filterMap_cons,
        List.length_cons]
      omega

/-- Every task of a slice contributes exactly one terminal outcome. -/
theorem processSlice_count (fn : LogContent → Except UploadError S3UploadResult)
    (batch : List LogContent) :
    (processSlice fn batch).1.length + (processSlice fn batch).2.1.length
      = batch.length := by
  simpa only [processSlice] using settledCount fn batch

/-- The slice post-states of a slice are the per-task settle post-states. -/
theorem processSlice_tasks (fn : LogContent → Except UploadError S3UploadResult)
    (batch : List LogContent) :
    (processSlice fn batch).2.2 = batch.map (fun l => (settleTask fn l).2.2) := by
  simp [processSlice]

/-- Exhaustive-outcome invariant for the whole slicing loop. -/
theorem uploadSlices_count (fn : LogContent → Except UploadError S3UploadResult)
    (c : Nat) (logs : List LogContent) :
    (uploadSlices fn c logs).1.length + (uploadSlices fn c logs).2.1.length
      = logs.length := by
  induction logs using uploadSlices.induct fn c with
  | case1 => simp [uploadSlices]
  | case2 l ls ih =>
    have hslice := processSlice_count fn (l :: ls.take (c - 1))
    rw [uploadSlices]
    simp only [List.length_append]
    simp only [List.length_cons, List.length_take, List.length_drop] at *
    omega

/-- The final task list of the slicing loop is the per-task settle post-state
of every input task, in order. -/
theorem uploadSlices_tasks (fn : LogContent → Except UploadError S3UploadResult)
    (c : Nat) (logs : List LogContent) :
    (uploadSlices fn c logs).2.2 = logs.map (fun l => (settleTask fn l).2.2) := by
  induction logs using uploadSlices.induct fn c with
  | case1 => simp [uploadSlices]
  | case2 l ls ih =>
    rw [uploadSlices]
    show (processSlice fn (l :: ls.take (c - 1))).2.2
        ++ (uploadSlices fn c (ls.drop (c - 1))).2.2 = _
    rw [processSlice_tasks, ih]
    rw [← List.map_append, List.cons_append, List.take_append_drop]

/-- On an all-failing upload oracle, no settled task yields a result. -/
theorem allFailResults (errOf : LogContent → UploadError) :
    ∀ b : List LogContent,
      ((b.map (settleTask (fun l => .error (errOf l)))).filterMap
          (fun s => s.1)) = []
  | [] => rfl
  | x :: xs => by simp [settleTask, allFailResults errOf xs]

/-- On an all-failing upload oracle, every settled task records its error. -/
theorem allFailErrors (errOf : LogContent → UploadError) :
    ∀ b : List LogContent,
      ((b.map (settleTask (fun l => .error (errOf l)))).filterMap
          (fun s => s.2.1))
        = b.map (fun l => l.jobName ++ ": " ++ (errOf l).message)
  | [] => rfl
  | x :: xs => by simpa [settleTask] using allFailErrors errOf xs

/-- On an all-failing upload oracle, every task is left untouched. -/
theorem allFailTasks (errOf : LogContent → UploadError) :
    ∀ b : List LogContent,
      (b.map (settleTask (fun l => .error (errOf l)))).map (fun s => s.2.2) = b
  | [] => rfl
  | x :: xs => by simpa [settleTask] using allFailTasks errOf xs

/-- A slice of an all-failing batch: no results, all errors recorded in order,
tasks untouched. -/
theorem processSlice_allFail (errOf : LogContent → UploadError)
    (batch : List LogContent) :
    processSlice (fun l => .error (errOf l)) batch
      = ([], batch.map (fun l => l.jobName ++ ": " ++ (errOf l).message), batch) := by
  simp only [processSlice, allFailResults, allFailErrors, allFailTasks]

/-- When every upload fails, no result is produced, every task is recorded in
the error list in order, and every task is left untouched. -/
theorem uploadSlices_allFail (errOf : LogContent → UploadError) (c : Nat)
    (logs : List LogContent) :
    uploadSlices (fun l => .error (errOf l)) c logs
      = ([], logs.map (fun l => l.jobName ++ ": " ++ (errOf l).message), logs) := by
  induction logs using uploadSlices.induct (fun l => .error (errOf l)) c with
  | case1 => simp [uploadSlices]
  | case2 l ls ih =>
    rw [uploadSlices, ih, processSlice_allFail]
    simp only [List.append_nil, List.nil_append, ← List.map_append,
      List.cons_append, List.take_append_drop]

/-! ## Claim theorems -/

/-- C1.  For every non-empty list of upload tasks, the batch upload produces
exactly one terminal outcome per task: the number of successful results plus
the number of recorded per-task failures equals the number of input tasks. -/
theorem claim1_exhaustive_outcome (availableMemory : ℚ)
    (uploadFn : LogContent → Except UploadError S3UploadResult)
    (logs : List LogContent) (hne : logs ≠ []) :
    (uploadAllLogs availableMemory uploadFn logs).1.length
        + (uploadAllLogs availableMemory uploadFn logs).2.1.length
      = logs.length := by
  unfold uploadAllLogs
  rw [if_neg (fun h => hne (List.length_eq_zero.mp h))]
  exact uploadSlices_count uploadFn _ logs

/-- Witness for C1 at a concrete one-task batch on an all-succeeding
oracle. -/
theorem claim1_exhaustive_outcome_witness :
    ([tinyLog] ≠ ([] : List LogContent)) ∧
    (uploadAllLogs 0 okFn [tinyLog]).1.length
        + (uploadAllLogs 0 okFn [tinyLog]).2.1.length = 1 := by
  refine ⟨by simp, ?_⟩
  have h := claim1_exhaustive_outcome 0 okFn [tinyLog] (by simp)
  simpa using h

/-- C2.  The batch upload call does not raise when individual tasks fail
terminally — each per-task failure is captured into the failure list and all
remaining tasks are still processed (second conjunct: under an arbitrary
all-failing upload oracle, `uploadAllLogs` still returns, with every task
recorded in the error list, instead of raising).  The batch raises only if
validating the initial credential fails before any task is attempted (first
conjunct: the constructor of `S3Uploader` throws exactly when the bucket
name, access key id, or secret access key is missing). -/
theorem claim2_no_raise_on_task_failures :
    (∀ (credentials : CloudCredentialsResponse) (opts : Option RetryOptions),
      (∃ msg, mkS3Uploader credentials opts = .error msg) ↔
        (jsTrim credentials.bucket = "" ∨ jsTrim credentials.accessKeyId = ""
          ∨ jsTrim credentials.secretAccessKey = "")) ∧
    (∀ (availableMemory : ℚ) (errOf : LogContent → UploadError)
        (logs : List LogContent),
      uploadAllLogs availableMemory (fun l => .error (errOf l)) logs
        = ([], logs.map (fun l => l.jobName ++ ": " ++ (errOf l).message), logs)) := by
  constructor
  · intro credentials opts
    unfold mkS3Uploader
    split_ifs with h1 h2 h3 <;> simp [*]
  · intro availableMemory errOf logs
    unfold uploadAllLogs
    by_cases hl : logs.length = 0
    · rw [if_pos hl, List.length_eq_zero.mp hl]
      rfl
    · rw [if_neg hl]
      exact uploadSlices_allFail errOf _ logs

/-- Witness for C2: missing access key id makes the constructor throw, and a
concrete all-failing one-task batch returns its failure list instead of
raising. -/
theorem claim2_no_raise_witness :
    (∃ msg, mkS3Uploader badCredentials none = .error msg) ∧
    uploadAllLogs 0 (fun l => .error ((fun _ => failNetError) l)) [tinyLog]
      = ([], ["job1: socket hang up"], [tinyLog]) := by
  constructor
  · exact (claim2_no_raise_on_task_failures.1 badCredentials none).mpr
      (Or.inr (Or.inl (by decide)))
  · rw [claim2_no_raise_on_task_failures.2 0 (fun _ => failNetError) [tinyLog]]
    simp [tinyLog, failNetError]

/-- C10.  A batch upload of an empty task list performs no transfer attempt
(the result is `([], [], [])` for **every** upload oracle, which is never
consulted), raises no error (the function totally returns), and yields an
empty result list. -/
theorem claim10_empty_batch (availableMemory : ℚ)
    (uploadFn : LogContent → Except UploadError S3UploadResult) :
    uploadAllLogs availableMemory uploadFn [] = ([], [], []) := rfl

/-- C3, counterexample.  The claim states that an operation always failing
with a `ClientRejected`-classified error (synthetic HTTP 400) is attempted
exactly once.  On the code it is attempted `maxAttempts` (= 3 by default)
times: `executeWithRetry` has no error classification at all — only the
credential-keyword check, which merely logs — so every failure is retried. -/
theorem claim3_counterexample :
    classifyError err400 = .clientRejected ∧
    isCredentialsError err400 = false ∧
    (executeWithRetry (fun _ => .error (α := S3UploadResult) err400)
        defaultRetryOptions).attempts = 3 ∧
    (executeWithRetry (fun _ => .error (α := S3UploadResult) err400)
        defaultRetryOptions).attempts ≠ 1 := by
  refine ⟨by decide, by decide, rfl, by decide⟩

/-- C3, amended.  An operation whose every attempt fails — with a
`ClientRejected`-classified error or any other error — is attempted exactly
`maxAttempts` times (for any policy with `maxAttempts ≥ 1`) and the last
error surfaces: the retry loop never short-circuits on error class. -/
theorem claim3_amended_client_errors_retried (opts : RetryOptions)
    (err : UploadError) (h : 1 ≤ opts.maxAttempts) :
    (executeWithRetry (fun _ => .error (α := S3UploadResult) err) opts).attempts
        = opts.maxAttempts ∧
    (executeWithRetry (fun _ => .error (α := S3UploadResult) err) opts).outcome
        = .error err := by
  obtain ⟨n, hn⟩ : ∃ n, opts.maxAttempts = n + 1 := ⟨opts.maxAttempts - 1, by omega⟩
  have hgo := retryGo_allFail (α := S3UploadResult) err opts.backoffFactor
    opts.maxDelay (n + 1) 1 opts.initialDelay (by omega)
  unfold executeWithRetry
  rw [hn]
  exact ⟨hgo.2, hgo.1⟩

/-- Witness for the amended C3 at the default policy and the synthetic
HTTP 400 error. -/
theorem claim3_amended_witness :
    1 ≤ defaultRetryOptions.maxAttempts ∧
    (executeWithRetry (fun _ => .error (α := S3UploadResult) err400)
        defaultRetryOptions).attempts = 3 := by
  refine ⟨by decide, ?_⟩
  exact (claim3_amended_client_errors_retried defaultRetryOptions err400
    (by decide)).1

/-- C4, counterexample.  The claim states that a task failing first with a
`CredentialExpired`-classified error and succeeding next makes exactly one
call to the refresh operation of the credential provider.  On the code, zero
refresh calls happen — lines 97-101 of `src/s3-uploader.ts` only log a
warning ("we have static credentials") — although the task does end
succeeded. -/
theorem claim4_counterexample :
    isCredentialsError expiredTokenError = true ∧
    (executeWithRetry opCredOnce defaultRetryOptions).outcome = .ok sampleResult ∧
    (executeWithRetry opCredOnce defaultRetryOptions).refreshCalls = 0 ∧
    (executeWithRetry opCredOnce defaultRetryOptions).refreshCalls ≠ 1 :=
  ⟨by decide, rfl, rfl, by decide⟩

/-- C4, amended.  A task failing first with a `CredentialExpired`-classified
error and succeeding on the next attempt makes **zero** refresh calls — the
retry loop instead logs exactly one credential warning — and ends in the
succeeded outcome after exactly two attempts. -/
theorem claim4_amended_no_refresh (op : Nat → Except UploadError S3UploadResult)
    (opts : RetryOptions) (e : UploadError) (v : S3UploadResult)
    (hmax : 2 ≤ opts.maxAttempts) (h1 : op 1 = .error e)
    (hcred : isCredentialsError e = true) (h2 : op 2 = .ok v) :
    (executeWithRetry op opts).outcome = .ok v ∧
    (executeWithRetry op opts).refreshCalls = 0 ∧
    (executeWithRetry op opts).credentialWarnings = 1 ∧
    (executeWithRetry op opts).attempts = 2 := by
  obtain ⟨m, hm⟩ : ∃ m, opts.maxAttempts = m + 2 := ⟨opts.maxAttempts - 2, by omega⟩
  have hrest := retryGo_ok op opts.backoffFactor opts.maxDelay 2
    (min (opts.initialDelay * opts.backoffFactor) opts.maxDelay) (m + 1) v h2
    (by omega)
  unfold executeWithRetry
  rw [hm]
  show (retryGo op opts.backoffFactor opts.maxDelay 1 opts.initialDelay
      (m + 2)).outcome = _ ∧ _
  simp only [retryGo, h1, hrest, hcred]
  simp

/-- Witness for the amended C4: a concrete operation failing once with an
`ExpiredToken` error then succeeding, under the default policy. -/
theorem claim4_amended_witness :
    2 ≤ defaultRetryOptions.maxAttempts ∧
    (executeWithRetry opCredOnce defaultRetryOptions).outcome = .ok sampleResult ∧
    (executeWithRetry opCredOnce defaultRetryOptions).refreshCalls = 0 ∧
    (executeWithRetry opCredOnce defaultRetryOptions).credentialWarnings = 1 ∧
    (executeWithRetry opCredOnce defaultRetryOptions).attempts = 2 := by
  refine ⟨by decide, ?_⟩
  exact claim4_amended_no_refresh opCredOnce defaultRetryOptions
    expiredTokenError sampleResult (by decide) rfl (by decide) rfl

/-- C5.  For the policy `{initialDelay := 1000, maxDelay := 10000,
backoffFactor := 2}` (any `maxAttempts`), the delay slept before the `k`-th
retry of an always-failing operation is `min (1000 * 2 ^ (k-1)) 10000`
(stated 0-based over `List.range`); concretely for 7 attempts the delays are
`[1000, 2000, 4000, 8000, 10000, 10000]`, capped at `maxDelay`; and no delay
follows the final failed attempt: there are `maxAttempts - 1` delays for
`maxAttempts` attempts. -/
theorem claim5_backoff_delays (n : Nat) (err : UploadError) :
    (executeWithRetry (fun _ => .error (α := S3UploadResult) err)
        ⟨n, 1000, 10000, 2⟩).delays
      = (List.range (n - 1)).map (fun k => min (1000 * 2 ^ k) 10000) ∧
    (executeWithRetry (fun _ => .error (α := S3UploadResult) err)
        ⟨n, 1000, 10000, 2⟩).delays.length = n - 1 ∧
    (executeWithRetry (fun _ => .error (α := S3UploadResult) err)
        ⟨7, 1000, 10000, 2⟩).delays
      = [1000, 2000, 4000, 8000, 10000, 10000] := by
  have hmain : (executeWithRetry (fun _ => .error (α := S3UploadResult) err)
      ⟨n, 1000, 10000, 2⟩).delays
      = (List.range (n - 1)).map (fun k => min (1000 * 2 ^ k) 10000) := by
    match n with
    | 0 => simp [executeWithRetry]
    | (m + 1) =>
      exact retryGo_allFail_delays (α := S3UploadResult) err 10000 (m + 1) 1 1000
        (by norm_num)
  refine ⟨hmain, ?_, ?_⟩
  · rw [hmain]
    simp
  · have h7 := retryGo_allFail_delays (α := S3UploadResult) err 10000 7 1 1000
      (by norm_num)
    calc (executeWithRetry (fun _ => .error (α := S3UploadResult) err)
        ⟨7, 1000, 10000, 2⟩).delays
        = (List.range 6).map (fun k => min (1000 * 2 ^ k) 10000) := h7
      _ = [1000, 2000, 4000, 8000, 10000, 10000] := by decide

/-- C6.  The planned batch concurrency level follows the four-tier table in
order, first match winning: 1 when the arithmetic mean of task content sizes
exceeds 10 MiB; else 2 when the mean exceeds 1 MiB; else 5 when estimated
available memory exceeds 1 GiB; otherwise 3. -/
theorem claim6_concurrency_tiers (logs : List LogContent) (mem : ℚ) :
    (((((logs.map (fun l => l.content.length)).sum : ℕ) : ℚ) / (logs.length : ℚ)
        > 10 * 1024 * 1024) → concurrencyLimit logs mem = 1) ∧
    (¬((((logs.map (fun l => l.content.length)).sum : ℕ) : ℚ) / (logs.length : ℚ)
        > 10 * 1024 * 1024) →
      ((((logs.map (fun l => l.content.length)).sum : ℕ) : ℚ) / (logs.length : ℚ)
        > 1024 * 1024) → concurrencyLimit logs mem = 2) ∧
    (¬((((logs.map (fun l => l.content.length)).sum : ℕ) : ℚ) / (logs.length : ℚ)
        > 10 * 1024 * 1024) →
      ¬((((logs.map (fun l => l.content.length)).sum : ℕ) : ℚ) / (logs.length : ℚ)
        > 1024 * 1024) →
      mem > 1024 * 1024 * 1024 → concurrencyLimit logs mem = 5) ∧
    (¬((((logs.map (fun l => l.content.length)).sum : ℕ) : ℚ) / (logs.length : ℚ)
        > 10 * 1024 * 1024) →
      ¬((((logs.map (fun l => l.content.length)).sum : ℕ) : ℚ) / (logs.length : ℚ)
        > 1024 * 1024) →
      ¬(mem > 1024 * 1024 * 1024) → concurrencyLimit logs mem = 3) := by
  simp only [concurrencyLimit]
  split_ifs with h1 h2 h3 <;>
    refine ⟨fun hA => ?_, fun hA hB => ?_, fun hA hB hC => ?_, fun hA hB hC => ?_⟩ <;>
    first | rfl | tauto

/-- Witness for C6: one concrete task list per tier (11 MiB mean, 2 MiB mean,
tiny mean with a large-memory signal, tiny mean without one). -/
theorem claim6_concurrency_tiers_witness :
    concurrencyLimit [bigLog] 0 = 1 ∧
    concurrencyLimit [medLog] 0 = 2 ∧
    concurrencyLimit [smallLog] (2 * 1024 * 1024 * 1024) = 5 ∧
    concurrencyLimit [smallLog] 0 = 3 := by
  have hbig : bigLog.content.length = 11534336 :=
    List.length_replicate 11534336 'a'
  have hmed : medLog.content.length = 2097152 :=
    List.length_replicate 2097152 'b'
  have hsmall : smallLog.content.length = 1 := by decide
  refine ⟨?_, ?_, ?_, ?_⟩
  · apply (claim6_concurrency_tiers [bigLog] 0).1
    norm_num [hbig]
  · apply (claim6_concurrency_tiers [medLog] 0).2.1 <;> norm_num [hmed]
  · apply (claim6_concurrency_tiers [smallLog] (2 * 1024 * 1024 * 1024)).2.2.1 <;>
      norm_num [hsmall]
  · apply (claim6_concurrency_tiers [smallLog] 0).2.2.2 <;> norm_num [hsmall]

/-- C7.  Object key derivation is deterministic (the embedding is a pure
function of path prefix, run id, job name and the parsed timestamp) and
follows the fixed format
`pathPrefix/date/runId/sanitizedJobName_epochMillis.log`, where sanitization
replaces every character outside the class with an underscore and keeps every
character inside it; every character of the sanitized name lies in the class;
the task name `build #1/linux` yields `build__1_linux` and a key containing
it. -/
theorem claim7_key_determinism :
    (∀ (r : Nat) (j d : String) (t : Int) (p : String),
      generateS3Key r j d t p = generateS3Key r j d t p) ∧
    (∀ (r : Nat) (j d : String) (t : Int) (p : String),
      generateS3Key r j d t p
        = p ++ "/" ++ d ++ "/" ++ toString r ++ "/"
            ++ String.mk
              (j.data.map (fun c => if isS3KeyAllowedChar c then c else '_'))
            ++ "_" ++ toString t ++ ".log") ∧
    (∀ j : String, (sanitizeJobName j).data.all isS3KeyAllowedChar = true) ∧
    sanitizeJobName "build #1/linux" = "build__1_linux" ∧
    generateS3Key 12345 "build #1/linux" "2024-01-01" 1704067200000 "logs"
      = "logs/2024-01-01/12345/build__1_linux_1704067200000.log" := by
  refine ⟨fun _ _ _ _ _ => rfl, fun _ _ _ _ _ => rfl, ?_, by decide, by decide⟩
  intro j
  simp only [sanitizeJobName, List.all_eq_true]
  intro c hc
  rcases List.mem_map.mp hc with ⟨b, _, rfl⟩
  by_cases h : isS3KeyAllowedChar b
  · rw [if_pos h]
    exact h
  · rw [if_neg h]
    decide

/-- C8, counterexample.  The claim states the content of every settled task is
replaced with the placeholder whether the task succeeds or fails.  On the
code, a task whose upload fails keeps its original content: after a one-task
batch on an always-failing oracle, the task list is unchanged and its content
is not the placeholder. -/
theorem claim8_counterexample :
    (uploadAllLogs 0 failNet [tinyLog]).2.2 = [tinyLog] ∧
    tinyLog.content ≠ uploadedPlaceholder := by
  constructor
  · unfold uploadAllLogs
    rw [if_neg (by simp)]
    show (uploadSlices (fun l => .error ((fun _ : LogContent => failNetError) l))
        (concurrencyLimit [tinyLog] 0) [tinyLog]).2.2 = [tinyLog]
    rw [uploadSlices_allFail]
  · decide

/-- C8, amended.  The final task list of a batch upload is the per-task
settlement post-state of every input task; a settled task keeps its
`jobName`, `jobId` and `timestamp` unchanged, its `content` is replaced by
the small placeholder **only when the task succeeded**, and a task that
failed terminally is left entirely unchanged (content included). -/
theorem claim8_amended_content_cleared_on_success
    (fn : LogContent → Except UploadError S3UploadResult)
    (availableMemory : ℚ) (logs : List LogContent) (log : LogContent) :
    ((uploadAllLogs availableMemory fn logs).2.2
        = logs.map (fun l => (settleTask fn l).2.2)) ∧
    (settleTask fn log).2.2.jobName = log.jobName ∧
    (settleTask fn log).2.2.jobId = log.jobId ∧
    (settleTask fn log).2.2.timestamp = log.timestamp ∧
    (∀ r, fn log = .ok r → (settleTask fn log).2.2.content = uploadedPlaceholder) ∧
    (∀ e, fn log = .error e → (settleTask fn log).2.2 = log) := by
  refine ⟨?_, ?_, ?_, ?_, ?_, ?_⟩
  · unfold uploadAllLogs
    by_cases hl : logs.length = 0
    · rw [if_pos hl, List.length_eq_zero.mp hl]
      rfl
    · rw [if_neg hl]
      exact uploadSlices_tasks fn _ logs
  · cases h : fn log <;> simp [settleTask, h]
  · cases h : fn log <;> simp [settleTask, h]
  · cases h : fn log <;> simp [settleTask, h]
  · intro r hr
    simp [settleTask, hr]
  · intro e he
    simp [settleTask, he]

/-- Witness for the amended C8: a successful one-task batch clears the
content to the placeholder, and a failed task is returned untouched. -/
theorem claim8_amended_witness :
    (uploadAllLogs 0 okFn [tinyLog]).2.2
        = [{ tinyLog with content := uploadedPlaceholder }] ∧
    (settleTask okFn tinyLog).2.2.content = uploadedPlaceholder ∧
    (settleTask failNet tinyLog).2.2 = tinyLog := by
  have h := claim8_amended_content_cleared_on_success okFn 0 [tinyLog] tinyLog
  have h2 := claim8_amended_content_cleared_on_success failNet 0 [tinyLog] tinyLog
  refine ⟨?_, ?_, ?_⟩
  · rw [h.1]
    simp [settleTask, okFn]
  · exact h.2.2.2.2.1 sampleResult rfl
  · exact h2.2.2.2.2.2 failNetError rfl

/-- C9.  For every credential carrying an expiration time, the validity check
accepts it exactly when the current time is earlier than the expiration minus
the fixed 5-minute safety margin; a credential failing the check is not
reused — the refresh path returns the freshly fetched credentials — while a
credential passing it is reused as-is. -/
theorem claim9_credential_validity (c fetched : CloudCredentialsResponse)
    (now expiration : Int) (h : c.expiration = some expiration) :
    (areCredentialsValid now c = true ↔ now < expiration - 5 * 60 * 1000) ∧
    (areCredentialsValid now c = false →
        refreshCredentialsIfNeeded now (some c) fetched = fetched) ∧
    (areCredentialsValid now c = true →
        refreshCredentialsIfNeeded now (some c) fetched = c) := by
  refine ⟨?_, ?_, ?_⟩
  · simp [areCredentialsValid, h]
  · intro hv
    simp [refreshCredentialsIfNeeded, hv]
  · intro hv
    simp [refreshCredentialsIfNeeded, hv]

/-- Witness for C9: credentials expiring at epoch millisecond 1000000 are
accepted at 699999, rejected at 700000 (= expiration minus 5 minutes), and
the rejection routes to the freshly fetched credentials. -/
theorem claim9_credential_validity_witness :
    areCredentialsValid 699999 sampleCredentials = true ∧
    areCredentialsValid 700000 sampleCredentials = false ∧
    refreshCredentialsIfNeeded 700000 (some sampleCredentials) freshCredentials
      = freshCredentials := by
  have h1 := claim9_credential_validity sampleCredentials freshCredentials
    699999 1000000 rfl
  have h2 := claim9_credential_validity sampleCredentials freshCredentials
    700000 1000000 rfl
  have hv : areCredentialsValid 700000 sampleCredentials = false := by
    cases hb : areCredentialsValid 700000 sampleCredentials
    · rfl
    · have := h2.1.mp hb
      omega
  exact ⟨h1.1.mpr (by norm_num), hv, h2.2.1 hv⟩

end GhAction
